import Mathlib

/-!
Verification of the API 510 inspection manager calculation engine.

The development shallowly embeds the calculation code in Lean:

* JavaScript floating point numbers are modelled by exact rationals; the
  torispherical head formula, which contains a square root, and the values
  derived from it are modelled over the reals.
* The `Infinity` sentinel returned by the minimum thickness functions is
  modelled by `⊤` in `WithTop ℚ` (respectively `WithTop ℝ`).
* Optional numeric input fields (TypeScript `number | undefined`) are
  `Option ℚ`; the JavaScript `x || d` defaulting idiom on numbers, which
  treats both `undefined` and `0` as absent, is `jsOrNum`.  Database
  varchar fields are parsed with `parseFloat` after a `s || literal`
  defaulting where only `null` and the empty string are falsy, so a stored
  numeric string is `Option ℚ` combined with `Option.getD` and
  `Option.orElse`.
* `Math.round x` on finite values is `⌊x + 1/2⌋`.
-/

/-- Minimum nominal corrosion rate when no measurable corrosion is seen
(1 mpy = 0.001 ipy), from calculations.ts. -/
def MIN_NOMINAL_RATE : ℚ := 1 / 1000

/-- Shell minimum thickness, `t = PR / (SE - 0.6P)`, from
calculations.ts `calculateShellMinimumThickness`; the `Infinity`
sentinel for a non-positive denominator is `⊤`. -/
def calculateShellMinimumThickness (pressure radius allowableStress jointEfficiency : ℚ) :
    WithTop ℚ :=
  let denominator := allowableStress * jointEfficiency - 0.6 * pressure
  if denominator ≤ 0 then ⊤ else (pressure * radius / denominator : ℚ)

/-- Ellipsoidal (2:1) head minimum thickness, `t = PD / (2SE - 0.2P)`, from
calculations.ts `calculateEllipsoidalHeadMinimumThickness`. -/
def calculateEllipsoidalHeadMinimumThickness
    (pressure diameter allowableStress jointEfficiency : ℚ) : WithTop ℚ :=
  let denominator := 2 * allowableStress * jointEfficiency - 0.2 * pressure
  if denominator ≤ 0 then ⊤ else (pressure * diameter / denominator : ℚ)

/-- Hemispherical head minimum thickness, `t = PR / (2SE - 0.2P)`, from
calculations.ts `calculateHemisphericalHeadMinimumThickness`. -/
def calculateHemisphericalHeadMinimumThickness
    (pressure radius allowableStress jointEfficiency : ℚ) : WithTop ℚ :=
  let denominator := 2 * allowableStress * jointEfficiency - 0.2 * pressure
  if denominator ≤ 0 then ⊤ else (pressure * radius / denominator : ℚ)

/-- Torispherical head minimum thickness, `t = PLM / (2SE - 0.2P)` with
`M = 0.25 (3 + sqrt (L / r))` and the knuckle radius defaulting to `0.06 L`
when absent or zero (the JavaScript `knuckleRadius || crownRadius * 0.06`),
from calculations.ts `calculateTorisphericalHeadMinimumThickness`.  The
square root forces this function to live over the reals. -/
noncomputable def calculateTorisphericalHeadMinimumThickness
    (pressure crownRadius allowableStress jointEfficiency : ℝ)
    (knuckleRadius : Option ℝ) : WithTop ℝ :=
  let r := match knuckleRadius with
    | some k => if k = 0 then crownRadius * 0.06 else k
    | none => crownRadius * 0.06
  let M := 0.25 * (3 + Real.sqrt (crownRadius / r))
  let denominator := 2 * allowableStress * jointEfficiency - 0.2 * pressure
  if denominator ≤ 0 then ⊤ else (pressure * crownRadius * M / denominator : ℝ)

/-- Shell MAWP, `P = SEt / (R + 0.6t)`, returning 0 for a non-positive
denominator, from calculations.ts `calculateShellMAWP`. -/
def calculateShellMAWP (thickness radius allowableStress jointEfficiency : ℚ) : ℚ :=
  let denominator := radius + 0.6 * thickness
  if denominator ≤ 0 then 0 else allowableStress * jointEfficiency * thickness / denominator

/-- Ellipsoidal head MAWP, `P = 2SEt / (D + 0.2t)`, from calculations.ts
`calculateEllipsoidalHeadMAWP`. -/
def calculateEllipsoidalHeadMAWP (thickness diameter allowableStress jointEfficiency : ℚ) : ℚ :=
  let denominator := diameter + 0.2 * thickness
  if denominator ≤ 0 then 0 else 2 * allowableStress * jointEfficiency * thickness / denominator

/-- Hemispherical head MAWP, `P = 2SEt / (R + 0.2t)`, from calculations.ts
`calculateHemisphericalHeadMAWP`. -/
def calculateHemisphericalHeadMAWP (thickness radius allowableStress jointEfficiency : ℚ) : ℚ :=
  let denominator := radius + 0.2 * thickness
  if denominator ≤ 0 then 0 else 2 * allowableStress * jointEfficiency * thickness / denominator

/-- Short-term corrosion rate, `(t_previous - t_actual) / Δt`, with the
nominal-rate floor for a non-positive span and for a negative or zero raw
rate, from calculations.ts `calculateShortTermCorrosionRate`. -/
def calculateShortTermCorrosionRate (previousThickness actualThickness timeSpan : ℚ) : ℚ :=
  if timeSpan ≤ 0 then MIN_NOMINAL_RATE
  else
    let rate := (previousThickness - actualThickness) / timeSpan
    if rate < 0 then MIN_NOMINAL_RATE
    else if rate = 0 then MIN_NOMINAL_RATE
    else rate

/-- Long-term corrosion rate, `(t_initial - t_actual) / Δt_total`, from
calculations.ts `calculateLongTermCorrosionRate`. -/
def calculateLongTermCorrosionRate (initialThickness actualThickness totalTimeSpan : ℚ) : ℚ :=
  if totalTimeSpan ≤ 0 then MIN_NOMINAL_RATE
  else
    let rate := (initialThickness - actualThickness) / totalTimeSpan
    if rate < 0 then MIN_NOMINAL_RATE
    else if rate = 0 then MIN_NOMINAL_RATE
    else rate

/-- Remaining life, `(t_actual - t_min) / CR`, with 999 for a non-positive
rate and 0 for a non-positive margin, from calculations.ts
`calculateRemainingLife`.  The rate check comes first, as in the source. -/
def calculateRemainingLife (actualThickness minimumThickness corrosionRate : ℚ) : ℚ :=
  if corrosionRate ≤ 0 then 999
  else
    let corrosionAllowance := actualThickness - minimumThickness
    if corrosionAllowance ≤ 0 then 0
    else corrosionAllowance / corrosionRate

/-- Next inspection interval, the lesser of half the remaining life and the
10 year ceiling, from calculations.ts `calculateNextInspectionInterval`;
stated over the reals because the remaining life computed by the pipeline
may involve the torispherical minimum thickness. -/
noncomputable def calculateNextInspectionInterval (remainingLife : ℝ) : ℝ :=
  if remainingLife ≤ 0 then 0 else min (remainingLife / 2) 10

/-- JavaScript `Math.round` on a finite value: round half toward positive
infinity. -/
def jsRound (x : ℚ) : ℤ := ⌊x + 1 / 2⌋

/-- `Math.round (x * s) / s`, the rounding-to-a-scale idiom used for the
result fields of `performComponentCalculations`. -/
def jsRoundScaled (s x : ℚ) : ℚ := (jsRound (x * s) : ℚ) / s

/-- `Math.round` over the reals. -/
noncomputable def jsRoundReal (x : ℝ) : ℤ := ⌊x + 1 / 2⌋

/-- `Math.round (x * s) / s` over the reals. -/
noncomputable def jsRoundScaledReal (s : ℚ) (x : ℝ) : ℝ := (jsRoundReal (x * (s : ℝ)) : ℝ) / (s : ℝ)

/-- The JavaScript `x || d` default on an optional number: `undefined` and
`0` both fall through to the default. -/
def jsOrNum (x : Option ℚ) (d : ℚ) : ℚ :=
  match x with
  | none => d
  | some v => if v = 0 then d else v

/-- Component kind of a calculation input, from calculations.ts. -/
inductive ComponentType
  | shell
  | head
  | nozzle
deriving DecidableEq

/-- Head geometry of a calculation input, from calculations.ts. -/
inductive HeadType
  | ellipsoidal
  | torispherical
  | hemispherical
deriving DecidableEq

/-- Governing rate tag of a calculation result, from calculations.ts. -/
inductive GoverningRate
  | LT
  | ST
deriving DecidableEq

/-- The `CalculationInput` interface of calculations.ts.  Required numeric
fields are rationals; optional ones are `Option ℚ`. -/
structure CalculationInput where
  designPressure : ℚ
  designTemperature : ℚ
  insideDiameter : ℚ
  allowableStress : ℚ
  jointEfficiency : ℚ
  actualThickness : ℚ
  previousThickness : Option ℚ := none
  nominalThickness : Option ℚ := none
  corrosionAllowance : Option ℚ := none
  timeSpan : Option ℚ := none
  initialThickness : Option ℚ := none
  totalTimeSpan : Option ℚ := none
  componentType : Option ComponentType := none
  headType : Option HeadType := none
deriving DecidableEq

/-- The `CalculationResult` interface of calculations.ts, without the
wall-clock `nextInspectionDate` field. -/
structure CalculationResult where
  minimumThickness : WithTop ℝ
  calculatedMAWP : ℚ
  corrosionRate : ℚ
  corrosionRateLT : ℚ
  corrosionRateST : ℚ
  governingRate : GoverningRate
  governingRateReason : String
  remainingLife : ℝ
  nextInspectionYears : ℝ
  isBelowMinimum : Prop
  statusMessage : String

/-- `const timeSpan = input.timeSpan || 10` in
`performComponentCalculations`. -/
def resolvedTimeSpan (input : CalculationInput) : ℚ := jsOrNum input.timeSpan 10

/-- `const totalTimeSpan = input.totalTimeSpan || timeSpan`. -/
def resolvedTotalTimeSpan (input : CalculationInput) : ℚ :=
  jsOrNum input.totalTimeSpan (resolvedTimeSpan input)

/-- `const previousThickness = input.previousThickness ||
input.nominalThickness || input.actualThickness`. -/
def resolvedPreviousThickness (input : CalculationInput) : ℚ :=
  jsOrNum input.previousThickness (jsOrNum input.nominalThickness input.actualThickness)

/-- `const initialThickness = input.initialThickness ||
input.nominalThickness || previousThickness`. -/
def resolvedInitialThickness (input : CalculationInput) : ℚ :=
  jsOrNum input.initialThickness (jsOrNum input.nominalThickness (resolvedPreviousThickness input))

/-- The short-term corrosion rate computed inside
`performComponentCalculations`, before rounding. -/
def inputCorrosionRateST (input : CalculationInput) : ℚ :=
  calculateShortTermCorrosionRate (resolvedPreviousThickness input) input.actualThickness
    (resolvedTimeSpan input)

/-- The long-term corrosion rate computed inside
`performComponentCalculations`, before rounding. -/
def inputCorrosionRateLT (input : CalculationInput) : ℚ :=
  calculateLongTermCorrosionRate (resolvedInitialThickness input) input.actualThickness
    (resolvedTotalTimeSpan input)

/-- Maps the exact rational minimum thickness into the reals, keeping the
`Infinity` sentinel. -/
def withTopRatToReal (x : WithTop ℚ) : WithTop ℝ :=
  WithTop.map (fun q : ℚ => (q : ℝ)) x

/-- The `minimumThickness` local of `performComponentCalculations`: the
head-type-aware branching over the formula library, before rounding. -/
noncomputable def rawMinimumThickness (input : CalculationInput) : WithTop ℝ :=
  let radius := input.insideDiameter / 2
  let diameter := input.insideDiameter
  if input.componentType = some ComponentType.head then
    if input.headType = some HeadType.hemispherical then
      withTopRatToReal (calculateHemisphericalHeadMinimumThickness input.designPressure radius
        input.allowableStress input.jointEfficiency)
    else if input.headType = some HeadType.torispherical then
      calculateTorisphericalHeadMinimumThickness (input.designPressure : ℝ) (diameter : ℝ)
        (input.allowableStress : ℝ) (input.jointEfficiency : ℝ) none
    else
      withTopRatToReal (calculateEllipsoidalHeadMinimumThickness input.designPressure diameter
        input.allowableStress input.jointEfficiency)
  else
    withTopRatToReal (calculateShellMinimumThickness input.designPressure radius
      input.allowableStress input.jointEfficiency)

/-- The `calculatedMAWP` local of `performComponentCalculations`, before
rounding. -/
def rawCalculatedMAWP (input : CalculationInput) : ℚ :=
  let radius := input.insideDiameter / 2
  let diameter := input.insideDiameter
  if input.componentType = some ComponentType.head then
    if input.headType = some HeadType.hemispherical then
      calculateHemisphericalHeadMAWP input.actualThickness radius input.allowableStress
        input.jointEfficiency
    else
      calculateEllipsoidalHeadMAWP input.actualThickness diameter input.allowableStress
        input.jointEfficiency
  else
    calculateShellMAWP input.actualThickness radius input.allowableStress input.jointEfficiency

/-- `calculateRemainingLife` as invoked by the pipeline, where the minimum
thickness argument may be the `Infinity` sentinel: the margin
`actual - Infinity` is negative infinity, so the non-positive-margin branch
fires whenever the rate check has not already fired. -/
noncomputable def remainingLifeWithTop (actual : ℚ) (minT : WithTop ℝ) (rate : ℚ) : ℝ :=
  if rate ≤ 0 then 999
  else match minT with
  | ⊤ => 0
  | (m : ℝ) => if (actual : ℝ) - m ≤ 0 then 0 else ((actual : ℝ) - m) / (rate : ℝ)

/-- The governing rate selection of `performComponentCalculations`: the
source takes the long-term branch when `corrosionRateLT >= corrosionRateST`. -/
def governingSelection (input : CalculationInput) : GoverningRate :=
  if inputCorrosionRateST input ≤ inputCorrosionRateLT input then GoverningRate.LT
  else GoverningRate.ST

/-- The `corrosionRate` local of `performComponentCalculations`: the rate of
the selected branch, before rounding. -/
def governingCorrosionRate (input : CalculationInput) : ℚ :=
  if inputCorrosionRateST input ≤ inputCorrosionRateLT input then inputCorrosionRateLT input
  else inputCorrosionRateST input

/-- The `remainingLife` local of `performComponentCalculations`, before
rounding. -/
noncomputable def rawRemainingLife (input : CalculationInput) : ℝ :=
  remainingLifeWithTop input.actualThickness (rawMinimumThickness input)
    (governingCorrosionRate input)

/-- The main calculation function of calculations.ts,
`performComponentCalculations`, without the wall-clock
`nextInspectionDate`. -/
noncomputable def performComponentCalculations (input : CalculationInput) : CalculationResult :=
  let corrosionRateST := inputCorrosionRateST input
  let corrosionRateLT := inputCorrosionRateLT input
  let remainingLife := rawRemainingLife input
  let nextInspectionYears := calculateNextInspectionInterval remainingLife
  let isBelowMinimum := ((input.actualThickness : ℝ) : WithTop ℝ) < rawMinimumThickness input
  { minimumThickness := WithTop.map (fun m : ℝ => jsRoundScaledReal 1000 m)
      (rawMinimumThickness input)
    calculatedMAWP := jsRoundScaled 10 (rawCalculatedMAWP input)
    corrosionRate := jsRoundScaled 10000 (governingCorrosionRate input)
    corrosionRateLT := jsRoundScaled 10000 corrosionRateLT
    corrosionRateST := jsRoundScaled 10000 corrosionRateST
    governingRate := governingSelection input
    governingRateReason :=
      if corrosionRateST ≤ corrosionRateLT then
        "Long-term rate is higher - indicates sustained corrosion"
      else
        "Short-term rate is higher - indicates accelerated recent corrosion"
    remainingLife := jsRoundScaledReal 10 remainingLife
    nextInspectionYears := jsRoundScaledReal 10 nextInspectionYears
    isBelowMinimum := isBelowMinimum
    statusMessage :=
      if ((input.actualThickness : ℝ) : WithTop ℝ) < rawMinimumThickness input then
        "UNSAFE - BELOW MINIMUM THICKNESS"
      else if remainingLife < 2 then "CRITICAL - Less than 2 years remaining life"
      else if remainingLife < 5 then "WARNING - Less than 5 years remaining life"
      else "ACCEPTABLE" }

/-- One row of the `tmlReadings` table (the fields the aggregation reads).
Every numeric column is a varchar in the schema; `none` models a null or
empty cell. -/
structure TmlReadingRow where
  componentType : Option String := none
  tml1 : Option ℚ := none
  tml2 : Option ℚ := none
  tml3 : Option ℚ := none
  tml4 : Option ℚ := none
  previousThickness : Option ℚ := none
  actualThickness : Option ℚ := none
deriving DecidableEq

/-- `parseFloat(r.actualThickness || r.tml1 || '0')` from the recalculate
aggregation in routers.ts: the stored actual thickness, falling back to the
first angular sub-reading, then to zero. -/
def readingActualCandidate (r : TmlReadingRow) : ℚ :=
  ((r.actualThickness.orElse fun _ => r.tml1).getD 0)

/-- The positive actual-thickness candidates of a component partition:
`.map(...).filter(t => t > 0)` from routers.ts. -/
def actualCandidates (readings : List TmlReadingRow) : List ℚ :=
  (readings.map readingActualCandidate).filter fun t => decide (0 < t)

/-- The positive previous-thickness candidates of a component partition:
`parseFloat(r.previousThickness || '0')` filtered to positive values. -/
def previousCandidates (readings : List TmlReadingRow) : List ℚ :=
  (readings.map fun r => r.previousThickness.getD 0).filter fun t => decide (0 < t)

/-- The worst-case actual thickness of a component partition from the
recalculate aggregation in routers.ts: `Math.min` over the positive
candidates, falling back to `parseFloat(inspection.nominalThickness || '0.5')`
when there are no readings or no positive candidates. -/
def aggregateActualThickness (nominalThickness : Option ℚ) (readings : List TmlReadingRow) : ℚ :=
  match (actualCandidates readings).min? with
  | some m => m
  | none => nominalThickness.getD (1 / 2)

/-- The worst-case previous thickness of a component partition from the
recalculate aggregation in routers.ts. -/
def aggregatePreviousThickness (nominalThickness : Option ℚ) (readings : List TmlReadingRow) :
    ℚ :=
  match (previousCandidates readings).min? with
  | some m => m
  | none => nominalThickness.getD (1 / 2)

/-- The four angular sub-readings of one reading that the spec says the
reduction minimises over.  This definition follows the words of the spec,
not the code; it exists to compare the two. -/
def specAngularSubReadings (r : TmlReadingRow) : List ℚ :=
  [r.tml1, r.tml2, r.tml3, r.tml4].filterMap id

/-- Worst-case actual thickness as the spec words it: the minimum across all
of the readings of all four tml angles, falling back to the nominal
thickness.  This definition follows the words of the spec, not the code; it
exists to compare the two. -/
def specWorstCaseActualThickness (nominalThickness : Option ℚ)
    (readings : List TmlReadingRow) : ℚ :=
  match ((readings.map specAngularSubReadings).flatten).min? with
  | some m => m
  | none => nominalThickness.getD (1 / 2)

/-- One row of the `materialStressValues` table (the columns the stress
lookup reads): material designation, temperature in whole °F and allowable
stress in whole psi. -/
structure MaterialStressRow where
  materialSpec : String
  temperature : ℤ
  allowableStress : ℤ
deriving DecidableEq

/-- The rows of a given material: the `materialSpec` equality filter of both
queries in `getMaterialStressValue`. -/
def stressRowsFor (table : List MaterialStressRow) (materialSpec : String) :
    List MaterialStressRow :=
  table.filter fun r => r.materialSpec == materialSpec

/-- `orderBy(desc(temperature)).limit(1)`: the row of greatest temperature,
keeping the earlier row on a tie. -/
def pickMaxTempRow : List MaterialStressRow → Option MaterialStressRow
  | [] => none
  | r :: rs => some (rs.foldl (fun a b => if a.temperature < b.temperature then b else a) r)

/-- `orderBy(asc(temperature)).limit(1)`: the row of least temperature,
keeping the earlier row on a tie. -/
def pickMinTempRow : List MaterialStressRow → Option MaterialStressRow
  | [] => none
  | r :: rs => some (rs.foldl (fun a b => if b.temperature < a.temperature then b else a) r)

/-- The lower-bound query of `getMaterialStressValue`: the greatest tabulated
temperature at most the target. -/
def lowerStressRow (table : List MaterialStressRow) (materialSpec : String) (temperature : ℚ) :
    Option MaterialStressRow :=
  pickMaxTempRow ((stressRowsFor table materialSpec).filter fun r =>
    decide ((r.temperature : ℚ) ≤ temperature))

/-- The upper-bound query of `getMaterialStressValue`: the least tabulated
temperature at least the target. -/
def upperStressRow (table : List MaterialStressRow) (materialSpec : String) (temperature : ℚ) :
    Option MaterialStressRow :=
  pickMinTempRow ((stressRowsFor table materialSpec).filter fun r =>
    decide (temperature ≤ (r.temperature : ℚ)))

/-- The stress lookup of `getMaterialStressValue` in the database helper
module: no points gives no result, a single bound is returned unmodified, an
exact match is returned, and otherwise the two bounds are linearly
interpolated and rounded to the nearest whole psi. -/
def getMaterialStressValue (table : List MaterialStressRow) (materialSpec : String)
    (temperature : ℚ) : Option ℚ :=
  match lowerStressRow table materialSpec temperature,
      upperStressRow table materialSpec temperature with
  | none, none => none
  | none, some u => some (u.allowableStress : ℚ)
  | some l, none => some (l.allowableStress : ℚ)
  | some l, some u =>
    if l.temperature = u.temperature then some (l.allowableStress : ℚ)
    else
      some ((jsRound ((l.allowableStress : ℚ) +
        (temperature - (l.temperature : ℚ)) / ((u.temperature : ℚ) - (l.temperature : ℚ)) *
          ((u.allowableStress : ℚ) - (l.allowableStress : ℚ))) : ℤ) : ℚ)

/-- Claim C1 (amended): both corrosion rate functions return exactly the
nominal floor 0.001 whenever the elapsed span is non-positive or the raw
computed rate (delta thickness over span) is non-positive, and otherwise
return the raw positive rate unchanged, which may lie strictly below
0.001. -/
theorem corrosionRate_floor_amended (x y s : ℚ) :
    (s ≤ 0 →
      calculateShortTermCorrosionRate x y s = 1 / 1000 ∧
      calculateLongTermCorrosionRate x y s = 1 / 1000) ∧
    (0 < s → (x - y) / s ≤ 0 →
      calculateShortTermCorrosionRate x y s = 1 / 1000 ∧
      calculateLongTermCorrosionRate x y s = 1 / 1000) ∧
    (0 < s → 0 < (x - y) / s →
      calculateShortTermCorrosionRate x y s = (x - y) / s ∧
      calculateLongTermCorrosionRate x y s = (x - y) / s) := by
  refine ⟨fun hs => ?_, fun hs hr => ?_, fun hs hr => ?_⟩
  · simp [calculateShortTermCorrosionRate, calculateLongTermCorrosionRate, hs,
      MIN_NOMINAL_RATE]
  · rcases lt_or_eq_of_le hr with h | h
    · simp [calculateShortTermCorrosionRate, calculateLongTermCorrosionRate,
        not_le.2 hs, h, MIN_NOMINAL_RATE]
    · simp [calculateShortTermCorrosionRate, calculateLongTermCorrosionRate,
        not_le.2 hs, h.symm, MIN_NOMINAL_RATE]
  · simp [calculateShortTermCorrosionRate, calculateLongTermCorrosionRate,
      not_le.2 hs, not_lt.2 hr.le, hr.ne', MIN_NOMINAL_RATE]

/-- Witness for C1: a negative span yields the floor on both functions. -/
theorem corrosionRate_floor_amended_witness :
    calculateShortTermCorrosionRate 5 4 (-1) = 1 / 1000 ∧
    calculateLongTermCorrosionRate 5 4 (-1) = 1 / 1000 :=
  (corrosionRate_floor_amended 5 4 (-1)).1 (by norm_num)

/-- Counterexample for C1 as stated: a small positive raw rate is returned
unchanged, strictly below the 0.001 floor the claim asserts for all
inputs. -/
theorem corrosionRate_below_floor_cex :
    calculateShortTermCorrosionRate 2 1 10000 = 1 / 10000 ∧
    calculateLongTermCorrosionRate 2 1 10000 = 1 / 10000 ∧
    (1 / 10000 : ℚ) < 1 / 1000 := by
  norm_num [calculateShortTermCorrosionRate, calculateLongTermCorrosionRate, MIN_NOMINAL_RATE]

/-- Claim C2 (amended): remaining life is `(t_actual - t_min) / rate` in
general; a non-positive rate yields the 999 sentinel, and this rate check
takes precedence, so the 0 result for a non-positive margin only applies
when the rate is positive. -/
theorem remainingLife_cases_amended (t tm r : ℚ) :
    (r ≤ 0 → calculateRemainingLife t tm r = 999) ∧
    (0 < r → t ≤ tm → calculateRemainingLife t tm r = 0) ∧
    (0 < r → tm < t → calculateRemainingLife t tm r = (t - tm) / r) := by
  refine ⟨fun h => ?_, fun hr h => ?_, fun hr h => ?_⟩
  · simp [calculateRemainingLife, h]
  · simp [calculateRemainingLife, not_le.2 hr, sub_nonpos.2 h]
  · simp [calculateRemainingLife, not_le.2 hr, not_le.2 (sub_pos.2 h)]

/-- Witness for C2: the margin case at concrete values. -/
theorem remainingLife_cases_amended_witness :
    calculateRemainingLife (3/8) (1/5) (1/200) = 35 :=
  ((remainingLife_cases_amended (3/8) (1/5) (1/200)).2.2 (by norm_num) (by norm_num)).trans
    (by norm_num)

/-- Counterexample for C2 as stated: with the actual thickness at or below
the minimum and a non-positive rate the code returns the 999 sentinel, not
the 0 the claim gives precedence to. -/
theorem remainingLife_precedence_cex :
    (1/10 : ℚ) ≤ 2/10 ∧ (0 : ℚ) ≤ 0 ∧
    calculateRemainingLife (1/10) (2/10) 0 = 999 ∧ (999 : ℚ) ≠ 0 := by
  norm_num [calculateRemainingLife]

/-- Claim C4: for a non-negative design pressure, positive radius and a
positive denominator, feeding the shell minimum thickness back into the
shell MAWP formula recovers the design pressure exactly. -/
theorem shell_roundTrip (P R S E : ℚ) (hP : 0 ≤ P) (hR : 0 < R)
    (h : 0.6 * P < S * E) :
    ∀ t : ℚ, calculateShellMinimumThickness P R S E = (t : WithTop ℚ) →
      calculateShellMAWP t R S E = P := by
  intro t ht
  have hd : 0 < S * E - 0.6 * P := by linarith
  have hSE : 0 < S * E := by linarith
  simp only [calculateShellMinimumThickness, if_neg (not_le.2 hd)] at ht
  have ht2 : t = P * R / (S * E - 0.6 * P) := by exact_mod_cast ht.symm
  have hpos : 0 < R + 0.6 * (P * R / (S * E - 0.6 * P)) := by
    have hden : R + 0.6 * (P * R / (S * E - 0.6 * P)) = R * (S * E) / (S * E - 0.6 * P) := by
      field_simp
      ring
    rw [hden]
    positivity
  rw [ht2]
  simp only [calculateShellMAWP, if_neg (not_le.2 hpos)]
  rw [div_eq_iff hpos.ne']
  field_simp
  ring

/-- Witness for C4 at the worked scenario of the test suite. -/
theorem shell_roundTrip_witness :
    calculateShellMAWP (360/1691) 24 20000 (17/20) = 150 :=
  shell_roundTrip 150 24 20000 (17/20) (by norm_num) (by norm_num) (by norm_num) (360/1691)
    (by norm_num [calculateShellMinimumThickness])

/-- Claim C6: on the valid domain (positive pressure, radius, stress and
joint efficiency, positive denominator) the shell minimum thickness is
strictly increasing in the pressure and the radius and strictly decreasing
in the allowable stress and the joint efficiency. -/
theorem shellMin_monotone (P R S E x : ℚ) (hP : 0 < P) (hR : 0 < R) (hS : 0 < S)
    (hE : 0 < E) (hd : 0.6 * P < S * E) :
    (P < x →
      calculateShellMinimumThickness P R S E < calculateShellMinimumThickness x R S E) ∧
    (R < x →
      calculateShellMinimumThickness P R S E < calculateShellMinimumThickness P x S E) ∧
    (S < x →
      calculateShellMinimumThickness P R x E < calculateShellMinimumThickness P R S E) ∧
    (E < x →
      calculateShellMinimumThickness P R S x < calculateShellMinimumThickness P R S E) := by
  have hd0 : 0 < S * E - 0.6 * P := by linarith
  have hSE : 0 < S * E := by nlinarith
  refine ⟨fun hx => ?_, fun hx => ?_, fun hx => ?_, fun hx => ?_⟩
  · simp only [calculateShellMinimumThickness, if_neg (not_le.2 hd0)]
    by_cases hdx : S * E - 0.6 * x ≤ 0
    · rw [if_pos hdx]
      exact WithTop.coe_lt_top _
    · push_neg at hdx
      rw [if_neg (not_le.2 hdx)]
      rw [WithTop.coe_lt_coe, div_lt_div_iff₀ hd0 hdx]
      nlinarith [mul_pos (mul_pos hR hSE) (sub_pos.2 hx)]
  · have hdx := hd0
    simp only [calculateShellMinimumThickness, if_neg (not_le.2 hd0)]
    rw [WithTop.coe_lt_coe, div_lt_div_iff₀ hd0 hd0]
    nlinarith [mul_pos (mul_pos hP hd0) (sub_pos.2 hx)]
  · have hdx : 0 < x * E - 0.6 * P := by nlinarith
    simp only [calculateShellMinimumThickness, if_neg (not_le.2 hd0), if_neg (not_le.2 hdx)]
    rw [WithTop.coe_lt_coe]
    apply div_lt_div_of_pos_left (by positivity) hd0
    nlinarith
  · have hdx : 0 < S * x - 0.6 * P := by nlinarith
    simp only [calculateShellMinimumThickness, if_neg (not_le.2 hd0), if_neg (not_le.2 hdx)]
    rw [WithTop.coe_lt_coe]
    apply div_lt_div_of_pos_left (by positivity) hd0
    nlinarith

/-- Witness for C6: strict increase in the pressure at concrete values. -/
theorem shellMin_monotone_witness :
    calculateShellMinimumThickness 100 10 1000 1 < calculateShellMinimumThickness 200 10 1000 1 :=
  (shellMin_monotone 100 10 1000 1 200 (by norm_num) (by norm_num) (by norm_num) (by norm_num)
    (by norm_num)).1 (by norm_num)

/-- Claim C7 (amended): for a positive pressure and radius, whenever the
hemispherical denominator is positive the hemispherical head minimum
thickness is strictly below the shell minimum thickness (which may be the
infinity sentinel). -/
theorem hemi_lt_shell_amended (P R S E : ℚ) (hP : 0 < P) (hR : 0 < R)
    (hdH : 0.2 * P < 2 * S * E) :
    calculateHemisphericalHeadMinimumThickness P R S E <
      calculateShellMinimumThickness P R S E := by
  have hdH0 : 0 < 2 * S * E - 0.2 * P := by linarith
  have hSE : 0 < S * E := by nlinarith
  simp only [calculateHemisphericalHeadMinimumThickness, calculateShellMinimumThickness,
    if_neg (not_le.2 hdH0)]
  by_cases hdS : S * E - 0.6 * P ≤ 0
  · rw [if_pos hdS]
    exact WithTop.coe_lt_top _
  · push_neg at hdS
    rw [if_neg (not_le.2 hdS)]
    rw [WithTop.coe_lt_coe]
    apply div_lt_div_of_pos_left (by positivity) hdS
    nlinarith

/-- Witness for C7 at concrete values. -/
theorem hemi_lt_shell_amended_witness :
    calculateHemisphericalHeadMinimumThickness 100 10 1000 1 <
      calculateShellMinimumThickness 100 10 1000 1 :=
  hemi_lt_shell_amended 100 10 1000 1 (by norm_num) (by norm_num) (by norm_num)

/-- Counterexample for C7 as stated: at a pressure high enough that both
denominators are non-positive, both functions return the infinity sentinel
and the strict inequality fails. -/
theorem hemi_lt_shell_cex :
    ¬ (calculateHemisphericalHeadMinimumThickness 100 1 1 1 <
        calculateShellMinimumThickness 100 1 1 1) := by
  norm_num [calculateHemisphericalHeadMinimumThickness, calculateShellMinimumThickness]

/-- Claim C5: each minimum-thickness function returns the infinity sentinel
exactly when its denominator is non-positive, each MAWP function returns 0
for a non-positive denominator and for zero thickness, and in particular the
shell minimum thickness is infinite whenever `S E ≤ 0.6 P` and zero at zero
pressure for positive stress and efficiency. -/
theorem sentinel_degeneracy (P R S E D t : ℚ) (Pr L Sr Er : ℝ) (kr : Option ℝ) :
    (calculateShellMinimumThickness P R S E = ⊤ ↔ S * E - 0.6 * P ≤ 0) ∧
    (calculateEllipsoidalHeadMinimumThickness P D S E = ⊤ ↔ 2 * S * E - 0.2 * P ≤ 0) ∧
    (calculateHemisphericalHeadMinimumThickness P R S E = ⊤ ↔ 2 * S * E - 0.2 * P ≤ 0) ∧
    (calculateTorisphericalHeadMinimumThickness Pr L Sr Er kr = ⊤ ↔
      2 * Sr * Er - 0.2 * Pr ≤ 0) ∧
    (R + 0.6 * t ≤ 0 → calculateShellMAWP t R S E = 0) ∧
    (calculateShellMAWP 0 R S E = 0) ∧
    (D + 0.2 * t ≤ 0 → calculateEllipsoidalHeadMAWP t D S E = 0) ∧
    (calculateEllipsoidalHeadMAWP 0 D S E = 0) ∧
    (R + 0.2 * t ≤ 0 → calculateHemisphericalHeadMAWP t R S E = 0) ∧
    (calculateHemisphericalHeadMAWP 0 R S E = 0) ∧
    (S * E ≤ 0.6 * P → calculateShellMinimumThickness P R S E = ⊤) ∧
    (0 < S → 0 < E → calculateShellMinimumThickness 0 R S E = ((0 : ℚ) : WithTop ℚ)) := by
  refine ⟨?_, ?_, ?_, ?_, fun h => ?_, ?_, fun h => ?_, ?_, fun h => ?_, ?_, fun h => ?_,
    fun hS hE => ?_⟩
  · simp only [calculateShellMinimumThickness]
    split
    · simp_all
    · simp_all [WithTop.coe_ne_top]
  · simp only [calculateEllipsoidalHeadMinimumThickness]
    split
    · simp_all
    · simp_all [WithTop.coe_ne_top]
  · simp only [calculateHemisphericalHeadMinimumThickness]
    split
    · simp_all
    · simp_all [WithTop.coe_ne_top]
  · simp only [calculateTorisphericalHeadMinimumThickness]
    split
    · simp_all
    · simp_all [WithTop.coe_ne_top]
  · simp [calculateShellMAWP, h]
  · simp [calculateShellMAWP]
  · simp [calculateEllipsoidalHeadMAWP, h]
  · simp [calculateEllipsoidalHeadMAWP]
  · simp [calculateHemisphericalHeadMAWP, h]
  · simp [calculateHemisphericalHeadMAWP]
  · simp [calculateShellMinimumThickness, sub_nonpos.2 h]
  · simp [calculateShellMinimumThickness, (mul_pos hS hE).not_le]

/-- Witness for C5: the zero-thickness MAWP, the non-positive MAWP
denominator and the zero-pressure minimum thickness at concrete values. -/
theorem sentinel_degeneracy_witness :
    calculateShellMAWP (1/2) (-1) 3 1 = 0 ∧
    calculateShellMinimumThickness 0 (-1) 3 1 = ((0 : ℚ) : WithTop ℚ) :=
  ⟨(sentinel_degeneracy 1 (-1) 3 1 1 (1/2) 1 1 1 1 none).2.2.2.2.1 (by norm_num),
    (sentinel_degeneracy 1 (-1) 3 1 1 (1/2) 1 1 1 1 none).2.2.2.2.2.2.2.2.2.2.2
      (by norm_num) (by norm_num)⟩

/-- Claim C8: the governing corrosion rate used for remaining life is the
maximum of the long-term and short-term rates, the tag is LT exactly when
the long-term rate is at least the short-term rate (so ties go to LT), and
the tag matches the selected rate. -/
theorem governing_rate_max (input : CalculationInput) :
    (performComponentCalculations input).corrosionRate =
      jsRoundScaled 10000 (max (inputCorrosionRateLT input) (inputCorrosionRateST input)) ∧
    governingCorrosionRate input =
      max (inputCorrosionRateLT input) (inputCorrosionRateST input) ∧
    ((performComponentCalculations input).governingRate = GoverningRate.LT ↔
      inputCorrosionRateST input ≤ inputCorrosionRateLT input) ∧
    (inputCorrosionRateLT input = inputCorrosionRateST input →
      (performComponentCalculations input).governingRate = GoverningRate.LT) ∧
    (performComponentCalculations input).remainingLife =
      jsRoundScaledReal 10 (remainingLifeWithTop input.actualThickness
        (rawMinimumThickness input)
        (max (inputCorrosionRateLT input) (inputCorrosionRateST input))) := by
  rcases le_or_lt (inputCorrosionRateST input) (inputCorrosionRateLT input) with h | h
  · refine ⟨?_, ?_, ?_, fun _ => ?_, ?_⟩ <;>
      simp [performComponentCalculations, governingSelection, governingCorrosionRate,
        rawRemainingLife, h, max_eq_left h]
  · have hmax := max_eq_right h.le
    refine ⟨?_, ?_, ?_, fun heq => ?_, ?_⟩
    · simp [performComponentCalculations, governingCorrosionRate, not_le.2 h, hmax]
    · simp [governingCorrosionRate, not_le.2 h, hmax]
    · simp [performComponentCalculations, governingSelection, not_le.2 h]
    · exact absurd (le_of_eq heq.symm) (not_le.2 h)
    · simp [performComponentCalculations, rawRemainingLife, governingCorrosionRate,
        not_le.2 h, hmax]

/-- Claim C10 (amended): `performComponentCalculations` treats a zero value
in any optional numeric field as absent (zero time span falls back to the
10 year default, zero total span to the short-term span, zero previous
thickness to nominal then actual, zero initial thickness to nominal then
the resolved previous), and hence the elapsed-span branch of the corrosion
rate analyzers cannot fire when the supplied spans are non-negative; the
two rate calls take the raw-rate branch whenever the resolved span is
positive. -/
theorem zero_treated_as_absent_amended (input : CalculationInput) :
    (input.timeSpan = some 0 → resolvedTimeSpan input = 10) ∧
    (input.totalTimeSpan = some 0 → resolvedTotalTimeSpan input = resolvedTimeSpan input) ∧
    (input.previousThickness = some 0 →
      resolvedPreviousThickness input = jsOrNum input.nominalThickness input.actualThickness) ∧
    (input.initialThickness = some 0 →
      resolvedInitialThickness input =
        jsOrNum input.nominalThickness (resolvedPreviousThickness input)) ∧
    ((∀ s, input.timeSpan = some s → 0 ≤ s) → 0 < resolvedTimeSpan input) ∧
    ((∀ s, input.timeSpan = some s → 0 ≤ s) → (∀ s, input.totalTimeSpan = some s → 0 ≤ s) →
      0 < resolvedTotalTimeSpan input) ∧
    (0 < resolvedTimeSpan input →
      inputCorrosionRateST input =
        (let rate := (resolvedPreviousThickness input - input.actualThickness) /
            resolvedTimeSpan input
         if rate < 0 then 1 / 1000 else if rate = 0 then 1 / 1000 else rate)) ∧
    (0 < resolvedTotalTimeSpan input →
      inputCorrosionRateLT input =
        (let rate := (resolvedInitialThickness input - input.actualThickness) /
            resolvedTotalTimeSpan input
         if rate < 0 then 1 / 1000 else if rate = 0 then 1 / 1000 else rate)) := by
  have htpos : (∀ s, input.timeSpan = some s → 0 ≤ s) → 0 < resolvedTimeSpan input := by
    intro hs
    cases hts : input.timeSpan with
    | none => simp [resolvedTimeSpan, jsOrNum, hts]
    | some v =>
      have hv := hs v hts
      by_cases hv0 : v = 0
      · simp [resolvedTimeSpan, jsOrNum, hts, hv0]
      · simp only [resolvedTimeSpan, jsOrNum, hts, if_neg hv0]
        exact lt_of_le_of_ne hv (Ne.symm hv0)
  refine ⟨fun h => ?_, fun h => ?_, fun h => ?_, fun h => ?_, htpos, fun hs hts => ?_,
    fun h => ?_, fun h => ?_⟩
  · simp [resolvedTimeSpan, jsOrNum, h]
  · simp [resolvedTotalTimeSpan, jsOrNum, h]
  · simp [resolvedPreviousThickness, jsOrNum, h]
  · simp [resolvedInitialThickness, jsOrNum, h]
  · cases htt : input.totalTimeSpan with
    | none => simpa [resolvedTotalTimeSpan, jsOrNum, htt] using htpos hs
    | some v =>
      have hv := hts v htt
      by_cases hv0 : v = 0
      · simpa [resolvedTotalTimeSpan, jsOrNum, htt, hv0] using htpos hs
      · simp only [resolvedTotalTimeSpan, jsOrNum, htt, if_neg hv0]
        exact lt_of_le_of_ne hv (Ne.symm hv0)
  · simp [inputCorrosionRateST, calculateShortTermCorrosionRate, not_le.2 h, MIN_NOMINAL_RATE]
  · simp [inputCorrosionRateLT, calculateLongTermCorrosionRate, not_le.2 h, MIN_NOMINAL_RATE]

/-- An input whose explicitly supplied spans are zero: both fall through to
their defaults. -/
def zeroSpanInput : CalculationInput :=
  { designPressure := 250, designTemperature := 200, insideDiameter := 72,
    allowableStress := 20000, jointEfficiency := 17/20, actualThickness := 2/5,
    timeSpan := some 0, totalTimeSpan := some 0 }

/-- Witness for C10: an explicit zero time span resolves to the 10 year
default. -/
theorem zero_treated_as_absent_amended_witness :
    resolvedTimeSpan zeroSpanInput = 10 :=
  (zero_treated_as_absent_amended zeroSpanInput).1 rfl

/-- An input with a negative explicit time span. -/
def negativeSpanInput : CalculationInput :=
  { designPressure := 250, designTemperature := 200, insideDiameter := 72,
    allowableStress := 20000, jointEfficiency := 17/20, actualThickness := 2/5,
    previousThickness := some (3/10), timeSpan := some (-1) }

/-- Counterexample for C10 as stated: a negative explicit time span passes
through the defaulting untouched, so the short-term analyzer receives a
non-positive span and its span branch fires (returning the floor where the
raw-rate branch would have returned 1/10). -/
theorem negative_span_reaches_floor_cex :
    resolvedTimeSpan negativeSpanInput ≤ 0 ∧
    inputCorrosionRateST negativeSpanInput = 1 / 1000 ∧
    (resolvedPreviousThickness negativeSpanInput - negativeSpanInput.actualThickness) /
      resolvedTimeSpan negativeSpanInput = 1 / 10 := by
  norm_num [resolvedTimeSpan, resolvedPreviousThickness, inputCorrosionRateST,
    calculateShortTermCorrosionRate, jsOrNum, negativeSpanInput, MIN_NOMINAL_RATE]

/-- Claim C3 (amended): the aggregation reduces a component partition to the
minimum over the positive per-reading candidates, where the candidate of a
reading is its stored actual thickness falling back to the first angular
sub-reading only (tml2 through tml4 are not consulted), and to the minimum
over the positive previous values; with no readings, or no positive
candidates, both fall back to the nominal thickness. -/
theorem aggregation_worstCase_amended (nominal : ℚ) (readings : List TmlReadingRow) :
    (readings = [] →
      aggregateActualThickness (some nominal) readings = nominal ∧
      aggregatePreviousThickness (some nominal) readings = nominal) ∧
    (actualCandidates readings = [] →
      aggregateActualThickness (some nominal) readings = nominal) ∧
    (∀ m, (actualCandidates readings).min? = some m →
      aggregateActualThickness (some nominal) readings = m ∧
      m ∈ actualCandidates readings ∧ ∀ t ∈ actualCandidates readings, m ≤ t) ∧
    (previousCandidates readings = [] →
      aggregatePreviousThickness (some nominal) readings = nominal) ∧
    (∀ m, (previousCandidates readings).min? = some m →
      aggregatePreviousThickness (some nominal) readings = m ∧
      m ∈ previousCandidates readings ∧ ∀ t ∈ previousCandidates readings, m ≤ t) := by
  refine ⟨fun h => ?_, fun h => ?_, fun m hm => ?_, fun h => ?_, fun m hm => ?_⟩
  · subst h
    constructor <;> rfl
  · simp [aggregateActualThickness, h]
  · refine ⟨by simp [aggregateActualThickness, hm], List.min?_mem min_choice hm, ?_⟩
    exact (List.le_min?_iff (fun _ _ _ => le_min_iff) hm).1 le_rfl
  · simp [aggregatePreviousThickness, h]
  · refine ⟨by simp [aggregatePreviousThickness, hm], List.min?_mem min_choice hm, ?_⟩
    exact (List.le_min?_iff (fun _ _ _ => le_min_iff) hm).1 le_rfl

/-- A reading whose first angular sub-reading is 5 and second is 3, with no
stored actual thickness. -/
def angularReading : TmlReadingRow := { tml1 := some 5, tml2 := some 3 }

/-- Witness for C3: the aggregation returns the candidate minimum. -/
theorem aggregation_worstCase_amended_witness :
    aggregateActualThickness (some 7) [angularReading] = 5 :=
  ((aggregation_worstCase_amended 7 [angularReading]).2.2.1 5 (by decide)).1

/-- Counterexample for C3 as stated: with no stored actual thickness the
aggregation takes tml1 only, so it reports 5 where the minimum across all
four angular sub-readings is 3. -/
theorem aggregation_ignores_other_angles_cex :
    aggregateActualThickness (some 7) [angularReading] = 5 ∧
    specWorstCaseActualThickness (some 7) [angularReading] = 3 ∧
    (5 : ℚ) ≠ 3 := by
  refine ⟨by decide, by decide, by norm_num⟩

/-- The fold used by `pickMaxTempRow` produces an element of the candidate
list that all candidates are at most as warm as. -/
theorem foldl_maxTemp_spec (rs : List MaterialStressRow) (r : MaterialStressRow) :
    (rs.foldl (fun a b => if a.temperature < b.temperature then b else a) r) ∈ r :: rs ∧
    r.temperature ≤
      (rs.foldl (fun a b => if a.temperature < b.temperature then b else a) r).temperature ∧
    ∀ x ∈ rs, x.temperature ≤
      (rs.foldl (fun a b => if a.temperature < b.temperature then b else a) r).temperature := by
  induction rs generalizing r with
  | nil => exact ⟨List.mem_cons_self r [], le_rfl, by simp⟩
  | cons b bs ih =>
    have step : r.temperature ≤ (if r.temperature < b.temperature then b else r).temperature ∧
        b.temperature ≤ (if r.temperature < b.temperature then b else r).temperature := by
      split
      · exact ⟨le_of_lt (by assumption), le_rfl⟩
      · exact ⟨le_rfl, le_of_not_lt (by assumption)⟩
    obtain ⟨hmem, hself, hall⟩ := ih (if r.temperature < b.temperature then b else r)
    refine ⟨?_, ?_, ?_⟩
    · rcases List.mem_cons.1 hmem with h | h
      · rw [List.foldl_cons, h]
        split
        · simp
        · simp
      · exact List.mem_cons.2 (Or.inr (List.mem_cons.2 (Or.inr h)))
    · exact le_trans step.1 hself
    · intro x hx
      rcases List.mem_cons.1 hx with h | h
      · subst h
        exact le_trans step.2 hself
      · exact hall x h

/-- The fold used by `pickMinTempRow` produces an element of the candidate
list at most as warm as every candidate. -/
theorem foldl_minTemp_spec (rs : List MaterialStressRow) (r : MaterialStressRow) :
    (rs.foldl (fun a b => if b.temperature < a.temperature then b else a) r) ∈ r :: rs ∧
    (rs.foldl (fun a b => if b.temperature < a.temperature then b else a) r).temperature ≤
      r.temperature ∧
    ∀ x ∈ rs,
      (rs.foldl (fun a b => if b.temperature < a.temperature then b else a) r).temperature ≤
        x.temperature := by
  induction rs generalizing r with
  | nil => exact ⟨List.mem_cons_self r [], le_rfl, by simp⟩
  | cons b bs ih =>
    have step : (if b.temperature < r.temperature then b else r).temperature ≤ r.temperature ∧
        (if b.temperature < r.temperature then b else r).temperature ≤ b.temperature := by
      split
      · exact ⟨le_of_lt (by assumption), le_rfl⟩
      · exact ⟨le_rfl, le_of_not_lt (by assumption)⟩
    obtain ⟨hmem, hself, hall⟩ := ih (if b.temperature < r.temperature then b else r)
    refine ⟨?_, ?_, ?_⟩
    · rcases List.mem_cons.1 hmem with h | h
      · rw [List.foldl_cons, h]
        split
        · simp
        · simp
      · exact List.mem_cons.2 (Or.inr (List.mem_cons.2 (Or.inr h)))
    · exact le_trans hself step.1
    · intro x hx
      rcases List.mem_cons.1 hx with h | h
      · subst h
        exact le_trans hself step.2
      · exact hall x h

/-- A row selected by `pickMaxTempRow` belongs to the list and has the
greatest temperature of the list. -/
theorem pickMaxTempRow_spec (l : List MaterialStressRow) (m : MaterialStressRow)
    (h : pickMaxTempRow l = some m) :
    m ∈ l ∧ ∀ r ∈ l, r.temperature ≤ m.temperature := by
  cases l with
  | nil => simp [pickMaxTempRow] at h
  | cons r rs =>
    simp only [pickMaxTempRow, Option.some.injEq] at h
    obtain ⟨hmem, hself, hall⟩ := foldl_maxTemp_spec rs r
    rw [h] at hmem hself hall
    refine ⟨hmem, fun x hx => ?_⟩
    rcases List.mem_cons.1 hx with hr | hr
    · subst hr
      exact hself
    · exact hall x hr

/-- A row selected by `pickMinTempRow` belongs to the list and has the least
temperature of the list. -/
theorem pickMinTempRow_spec (l : List MaterialStressRow) (m : MaterialStressRow)
    (h : pickMinTempRow l = some m) :
    m ∈ l ∧ ∀ r ∈ l, m.temperature ≤ r.temperature := by
  cases l with
  | nil => simp [pickMinTempRow] at h
  | cons r rs =>
    simp only [pickMinTempRow, Option.some.injEq] at h
    obtain ⟨hmem, hself, hall⟩ := foldl_minTemp_spec rs r
    rw [h] at hmem hself hall
    refine ⟨hmem, fun x hx => ?_⟩
    rcases List.mem_cons.1 hx with hr | hr
    · subst hr
      exact hself
    · exact hall x hr

/-- Claim C9: the stress lookup returns no result when the material has no
tabulated points; the lower bound it selects is a tabulated point of the
material of greatest temperature at most the target, and the upper bound
one of least temperature at least the target; a single bound is returned
unmodified, coinciding bounds give that stress, and otherwise the two
bounds are linearly interpolated and rounded to the nearest whole psi, so
the result never extrapolates beyond the tabulated range. -/
theorem stress_lookup_cases (table : List MaterialStressRow) (mat : String) (temp : ℚ) :
    (stressRowsFor table mat = [] → getMaterialStressValue table mat temp = none) ∧
    (∀ l, lowerStressRow table mat temp = some l →
      l ∈ stressRowsFor table mat ∧ (l.temperature : ℚ) ≤ temp ∧
      ∀ r ∈ stressRowsFor table mat, (r.temperature : ℚ) ≤ temp →
        r.temperature ≤ l.temperature) ∧
    (∀ u, upperStressRow table mat temp = some u →
      u ∈ stressRowsFor table mat ∧ temp ≤ (u.temperature : ℚ) ∧
      ∀ r ∈ stressRowsFor table mat, temp ≤ (r.temperature : ℚ) →
        u.temperature ≤ r.temperature) ∧
    (∀ l, lowerStressRow table mat temp = some l → upperStressRow table mat temp = none →
      getMaterialStressValue table mat temp = some (l.allowableStress : ℚ)) ∧
    (∀ u, lowerStressRow table mat temp = none → upperStressRow table mat temp = some u →
      getMaterialStressValue table mat temp = some (u.allowableStress : ℚ)) ∧
    (∀ l u, lowerStressRow table mat temp = some l → upperStressRow table mat temp = some u →
      l.temperature = u.temperature →
      getMaterialStressValue table mat temp = some (l.allowableStress : ℚ)) ∧
    (∀ l u, lowerStressRow table mat temp = some l → upperStressRow table mat temp = some u →
      l.temperature ≠ u.temperature →
      getMaterialStressValue table mat temp =
        some ((jsRound ((l.allowableStress : ℚ) +
          (temp - (l.temperature : ℚ)) / ((u.temperature : ℚ) - (l.temperature : ℚ)) *
            ((u.allowableStress : ℚ) - (l.allowableStress : ℚ)))) : ℚ)) := by
  refine ⟨fun h => ?_, fun l hl => ?_, fun u hu => ?_, fun l hl hu => ?_, fun u hl hu => ?_,
    fun l u hl hu heq => ?_, fun l u hl hu hne => ?_⟩
  · simp [getMaterialStressValue, lowerStressRow, upperStressRow, h, pickMaxTempRow,
      pickMinTempRow]
  · obtain ⟨hmem, hall⟩ := pickMaxTempRow_spec _ _ hl
    have hmem2 := List.mem_filter.1 hmem
    refine ⟨hmem2.1, by simpa using hmem2.2, fun r hr hrt => ?_⟩
    exact hall r (List.mem_filter.2 ⟨hr, by simpa using hrt⟩)
  · obtain ⟨hmem, hall⟩ := pickMinTempRow_spec _ _ hu
    have hmem2 := List.mem_filter.1 hmem
    refine ⟨hmem2.1, by simpa using hmem2.2, fun r hr hrt => ?_⟩
    exact hall r (List.mem_filter.2 ⟨hr, by simpa using hrt⟩)
  · simp [getMaterialStressValue, hl, hu]
  · simp [getMaterialStressValue, hl, hu]
  · simp [getMaterialStressValue, hl, hu, heq]
  · simp [getMaterialStressValue, hl, hu, hne]

/-- A small stress table with two materials. -/
def exStressTable : List MaterialStressRow :=
  [⟨"SA-516-70", 100, 20000⟩, ⟨"SA-516-70", 200, 17500⟩, ⟨"SA-285-C", 100, 15700⟩]

/-- Witness for C9: interpolation halfway between two tabulated points. -/
theorem stress_lookup_cases_witness :
    getMaterialStressValue exStressTable "SA-516-70" 150 = some 18750 := by
  have h := (stress_lookup_cases exStressTable "SA-516-70" 150).2.2.2.2.2.2
    ⟨"SA-516-70", 100, 20000⟩ ⟨"SA-516-70", 200, 17500⟩ (by decide) (by decide) (by decide)
  rw [h]
  norm_num [jsRound]

/-- Sanity check for the embedding: on a finite rational minimum thickness
the lifted remaining life used by the pipeline agrees with the standalone
`calculateRemainingLife`. -/
theorem remainingLifeWithTop_coe (a m r : ℚ) :
    remainingLifeWithTop a ((m : ℝ) : WithTop ℝ) r = (calculateRemainingLife a m r : ℝ) := by
  unfold remainingLifeWithTop calculateRemainingLife
  by_cases hr : r ≤ 0
  · simp [hr]
  · by_cases hm : a - m ≤ 0
    · have hm2 : (a : ℝ) - m ≤ 0 := by exact_mod_cast hm
      simp [hr, hm, hm2]
    · have hm2 : ¬ ((a : ℝ) - m ≤ 0) := by exact_mod_cast hm
      simp only [hr, hm, hm2, if_false, if_neg]
      push_cast
      ring
